import Mathlib

/-!
# emmPipe locator node: draw override and attribute schema

A shallow embedding of `locatorDrawOverride.cpp` and `locatorNode.cpp`.

* Numbers (`float`, `double`) are exact rationals; `short` and `int` are integers, and
  an `int` handed to a `short` parameter is narrowed by `toShort` (modulo `2 ^ 16`).
* The draw manager is a recorder: every call made on it is appended to a trace,
  and `rendered` replays a trace through the manager's colour and line-width state.
* Pointers are `Option`s (`none` is `nullptr`) or addresses into an explicit `Heap`.
* Host classes whose code is outside the repository (`MUIDrawManager`, `MBoundingBox`,
  `MTransformationMatrix`) appear with the argument order of their declarations.
-/

namespace EmmPipe

/-! ## Host value types -/

/-- Homogeneous point of the host API. `MPoint(x, y, z)` leaves `w` at its default `1`. -/
structure MPoint where
  x : ℚ
  y : ℚ
  z : ℚ
  w : ℚ
  deriving DecidableEq

/-- Three-argument point constructor `MPoint(x, y, z)`, with `w = 1`. -/
def MPoint.xyz (x y z : ℚ) : MPoint := ⟨x, y, z, 1⟩

/-- Cartesian part of a point, as a triple. -/
def MPoint.cartesian (p : MPoint) : ℚ × ℚ × ℚ := (p.x, p.y, p.z)

/-- Host vector `MVector(x, y, z)`. -/
structure MVector where
  x : ℚ
  y : ℚ
  z : ℚ
  deriving DecidableEq

/-- Host colour `MColor(r, g, b, a)`. -/
structure MColor where
  r : ℚ
  g : ℚ
  b : ℚ
  a : ℚ
  deriving DecidableEq

/-- Host enumeration `MHWRender::DisplayStatus`. -/
inductive DisplayStatus where
  | kActive
  | kLive
  | kDormant
  | kInvisible
  | kHilite
  | kTemplate
  | kActiveTemplate
  | kActiveComponent
  | kLead
  | kIntermediateObject
  | kActiveAffected
  | kNoStatus
  deriving DecidableEq

/-! ## `locatorData.h` -/

/-- The per-frame snapshot `class LocatorData : public MUserData`. -/
structure LocatorData where
  wireFrameColor : MColor
  color : Int
  shape : Int
  filled : Bool
  lineThickness : ℚ
  displayStatus : DisplayStatus
  deriving DecidableEq

/-- An object behind an `MUserData*`: a `LocatorData`, or an object of another subclass. -/
inductive MUserData where
  | locator (d : LocatorData)
  | foreign (tag : Nat)
  deriving DecidableEq

/-- The cast `dynamic_cast<const LocatorData*>(data)` on a possibly-null pointer. -/
def dynamicCast : Option MUserData → Option LocatorData
  | some (MUserData.locator d) => some d
  | _ => none

/-- Conversion of an `int` to a `short`: the 16-bit two's-complement value congruent to
it modulo `2 ^ 16`. -/
def toShort (i : Int) : Int := (i + 32768) % 65536 - 32768

/-! ## The draw manager -/

/-- One call on `MUIDrawManager`, arguments in the order of the host declarations:
`setColorIndex(index)` with `index` a `short`,
`circle(center, normal, radius, filled)`,
`rect(center, up, normal, scaleX, scaleY, filled)`,
`lineStrip(points, draw2D)`,
`box(center, up, right, scaleX, scaleY, scaleZ, filled)`,
`sphere(center, radius, subdivisionsX, subdivisionsY, filled)`. -/
inductive DrawCall where
  | beginDrawable
  | setColor (c : MColor)
  | setColorIndex (index : Int)
  | setLineWidth (width : ℚ)
  | circle (center : MPoint) (normal : MVector) (radius : ℚ) (filled : Bool)
  | rect (center : MPoint) (up : MVector) (normal : MVector) (scaleX scaleY : ℚ) (filled : Bool)
  | lineStrip (points : List MPoint) (draw2D : Bool)
  | box (center : MPoint) (up : MVector) (right : MVector) (scaleX scaleY scaleZ : ℚ)
      (filled : Bool)
  | sphere (center : MPoint) (radius : ℚ) (subdivisionsX subdivisionsY : Nat) (filled : Bool)
  | endDrawable
  deriving DecidableEq

/-- Whether a call emits geometry (as opposed to batch brackets and state setters). -/
def DrawCall.isPrimitive : DrawCall → Bool
  | .circle .. => true
  | .rect .. => true
  | .lineStrip .. => true
  | .box .. => true
  | .sphere .. => true
  | _ => false

/-- The primitive calls of a trace, in order. -/
def primitives (calls : List DrawCall) : List DrawCall :=
  calls.filter DrawCall.isPrimitive

/-- Whether a primitive is drawn solid. A line strip has no fill argument and is
always an outline. -/
def DrawCall.solid : DrawCall → Bool
  | .circle _ _ _ f => f
  | .rect _ _ _ _ _ f => f
  | .box _ _ _ _ _ _ f => f
  | .sphere _ _ _ _ f => f
  | _ => false

/-- A primitive with its fill argument cleared: its kind, position, orientation and size. -/
def DrawCall.geometry : DrawCall → DrawCall
  | .circle c n r _ => .circle c n r false
  | .rect c u n sx sy _ => .rect c u n sx sy false
  | .box c u r sx sy sz _ => .box c u r sx sy sz false
  | .sphere c r nx ny _ => .sphere c r nx ny false
  | other => other

/-- The colour request in effect in the draw manager: an explicit colour (`setColor`)
or an entry of the host palette (`setColorIndex`). -/
inductive ColorSource where
  | rgba (c : MColor)
  | palette (index : Int)
  deriving DecidableEq

/-- Mutable state of the draw manager; `none` is the host default. -/
structure DrawState where
  color : Option ColorSource
  lineWidth : Option ℚ
  deriving DecidableEq

/-- A primitive together with the state it was emitted under. -/
structure Emitted where
  prim : DrawCall
  color : Option ColorSource
  lineWidth : Option ℚ
  deriving DecidableEq

/-- Replay of a trace from a given state: each setter replaces its part of the state,
each primitive is recorded with the state current at that point. -/
def replay : DrawState → List DrawCall → List Emitted
  | _, [] => []
  | s, .setColor c :: rest => replay { s with color := some (.rgba c) } rest
  | s, .setColorIndex i :: rest => replay { s with color := some (.palette i) } rest
  | s, .setLineWidth w :: rest => replay { s with lineWidth := some w } rest
  | s, call :: rest =>
    if call.isPrimitive then ⟨call, s.color, s.lineWidth⟩ :: replay s rest
    else replay s rest

/-- Replay from the host default state. -/
def rendered (calls : List DrawCall) : List Emitted :=
  replay ⟨none, none⟩ calls

/-! ## `LocatorDrawOverride::addUIDrawables` -/

/-- How a run of `addUIDrawables` ends. -/
inductive Fault where
  | nullDereference
  deriving DecidableEq

/-- Result of a run: the calls made on the draw manager, and the fault that cut the
run short, if any. -/
structure Outcome where
  calls : List DrawCall
  fault : Option Fault
  deriving DecidableEq

/-- The array `trianglePoints[4][4]`: each row has three initialisers, so the fourth
component of every row is zero-initialised. -/
def trianglePoints : List MPoint :=
  [⟨-1, 0, -1, 0⟩, ⟨0, 0, 1, 0⟩, ⟨1, 0, -1, 0⟩, ⟨-1, 0, -1, 0⟩]

/-- The `switch (userData->shape)` of `addUIDrawables`; no `default` branch. -/
def drawShape (u : LocatorData) : List DrawCall :=
  if u.shape = 0 then
    [.circle (MPoint.xyz 0 0 0) ⟨0, 1, 0⟩ 1 u.filled]
  else if u.shape = 1 then
    [.rect (MPoint.xyz 0 0 0) ⟨0, 0, 1⟩ ⟨0, 1, 0⟩ 1 1 u.filled]
  else if u.shape = 2 then
    [.lineStrip trianglePoints false]
  else if u.shape = 3 then
    [.box (MPoint.xyz 0 0 0) ⟨0, 1, 0⟩ ⟨1, 0, 0⟩ 1 1 1 u.filled]
  else if u.shape = 4 then
    [.sphere (MPoint.xyz 0 0 0) 1 8 6 u.filled]
  else
    []

/-- The body of `addUIDrawables` after the guard, for a successfully cast snapshot. The
`int` field `color` is narrowed to the `short` parameter of `setColorIndex`. -/
def drawLocator (u : LocatorData) : List DrawCall :=
  [DrawCall.beginDrawable, DrawCall.setColor u.wireFrameColor]
    ++ (if u.displayStatus = DisplayStatus.kDormant then
          [DrawCall.setColorIndex (toShort u.color)]
        else [])
    ++ [DrawCall.setLineWidth u.lineThickness]
    ++ drawShape u
    ++ [DrawCall.endDrawable]

/-- The method `LocatorDrawOverride::addUIDrawables`. The guard tests `data`, the pointer
before the cast; `userData`, the cast result, is dereferenced right after
`beginDrawable()`. -/
def addUIDrawables (data : Option MUserData) : Outcome :=
  let userData := dynamicCast data
  match data with
  | none => ⟨[], none⟩
  | some _ =>
    match userData with
    | none => ⟨[DrawCall.beginDrawable], some Fault.nullDereference⟩
    | some u => ⟨drawLocator u, none⟩

/-! ## Scene input: what the host returns for a path -/

/-- Host matrix `MMatrix`: 4 x 4, row-vector convention (translation in the last row). -/
abbrev MMatrix := Matrix (Fin 4) (Fin 4) ℚ

/-- Plug values of the locator node, as read through `MPlug(nodeObj, ...)`. The local
position and local scale plugs are inherited from the host base class `MPxLocatorNode`. -/
structure NodeAttrs where
  localPositionX : ℚ
  localPositionY : ℚ
  localPositionZ : ℚ
  localScaleX : ℚ
  localScaleY : ℚ
  localScaleZ : ℚ
  scale : ℚ
  localRotationX : ℚ
  localRotationY : ℚ
  localRotationZ : ℚ
  shapesEnum : Int
  colorsEnum : Int
  filled : Bool
  lineThickness : ℚ

/-- A scene path `MDagPath`, reduced to what the draw override asks the host about it:
the plugs of `objPath.node()`, element 0 of the `worldMatrix` plug of
`objPath.transform()`, and the display status and wireframe colour that
`MGeometryUtilities` resolves for the path. -/
structure MDagPath where
  node : NodeAttrs
  worldMatrix : MMatrix
  displayStatus : DisplayStatus
  wireframeColor : MColor

/-! ## `LocatorDrawOverride::isBounded`, `LocatorDrawOverride::boundingBox` -/

/-- Host box `MBoundingBox`, by its `min()` and `max()` corners. -/
structure MBoundingBox where
  min : MPoint
  max : MPoint
  deriving DecidableEq

/-- Host constructor `MBoundingBox(corner1, corner2)`: the axis-aligned box spanned by two
corner points, given in either order. -/
def MBoundingBox.ofCorners (corner1 corner2 : MPoint) : MBoundingBox :=
  ⟨MPoint.xyz (Min.min corner1.x corner2.x) (Min.min corner1.y corner2.y)
      (Min.min corner1.z corner2.z),
   MPoint.xyz (Max.max corner1.x corner2.x) (Max.max corner1.y corner2.y)
      (Max.max corner1.z corner2.z)⟩

/-- The method `LocatorDrawOverride::isBounded`. -/
def isBounded (_objPath _cameraPath : MDagPath) : Bool := true

/-- The method `LocatorDrawOverride::boundingBox`. -/
def boundingBox (_objPath _cameraPath : MDagPath) : MBoundingBox :=
  MBoundingBox.ofCorners (MPoint.xyz 1 1 1) (MPoint.xyz (-1) (-1) (-1))

/-! ## `LocatorDrawOverride::prepareForDraw` -/

/-- The free store: the object at address `p` is `objs[p]`. -/
structure Heap where
  objs : List MUserData
  deriving DecidableEq

/-- The object an address points to, if the address is allocated. -/
def Heap.deref (h : Heap) (p : Nat) : Option MUserData := h.objs.get? p

/-- The cast `dynamic_cast<LocatorData*>(oldData)`: the same address when the object
there is a `LocatorData`, null otherwise. -/
def Heap.castLocator (h : Heap) : Option Nat → Option Nat
  | none => none
  | some p =>
    match h.deref p with
    | some (MUserData.locator _) => some p
    | _ => none

/-- The allocation `new LocatorData()`: a new object at the first unused address. -/
def Heap.new (h : Heap) (init : LocatorData) : Nat × Heap :=
  (h.objs.length, ⟨h.objs ++ [MUserData.locator init]⟩)

/-- Field assignment through a `LocatorData*`. -/
def Heap.assign (h : Heap) (p : Nat) (f : LocatorData → LocatorData) : Heap :=
  match h.deref p with
  | some (MUserData.locator d) => ⟨h.objs.set p (MUserData.locator (f d))⟩
  | _ => h

/-- The method `LocatorDrawOverride::prepareForDraw`. `ctor` is the state the constructor
`LocatorData()` leaves a new object in (its definition is not part of the sources).
Returns the `MUserData*` handed back to the host and the free store after the call. -/
def prepareForDraw (ctor : LocatorData) (objPath : MDagPath) (heap : Heap)
    (oldData : Option Nat) : Nat × Heap :=
  let (data, heap) :=
    match heap.castLocator oldData with
    | some p => (p, heap)
    | none => heap.new ctor
  let heap := heap.assign data fun d => { d with color := objPath.node.colorsEnum }
  let heap := heap.assign data fun d => { d with displayStatus := objPath.displayStatus }
  let heap := heap.assign data fun d => { d with wireFrameColor := objPath.wireframeColor }
  let heap := heap.assign data fun d => { d with shape := objPath.node.shapesEnum }
  let heap := heap.assign data fun d => { d with filled := objPath.node.filled }
  let heap := heap.assign data fun d => { d with lineThickness := objPath.node.lineThickness }
  (data, heap)

/-- The node's and host's current values, as one snapshot. -/
def currentValues (objPath : MDagPath) : LocatorData :=
  { wireFrameColor := objPath.wireframeColor
    color := objPath.node.colorsEnum
    shape := objPath.node.shapesEnum
    filled := objPath.node.filled
    lineThickness := objPath.node.lineThickness
    displayStatus := objPath.displayStatus }

/-! ## `LocatorDrawOverride::transform` -/

/-- The constant `LocatorDrawOverride::radian`, the literal taken exactly. -/
def radian : ℚ := 314159265358979323846 / 100000000000000000000 / 180

/-- Host enumeration `MEulerRotation::RotationOrder`. -/
inductive RotationOrder where
  | kXYZ
  | kYZX
  | kZXY
  | kXZY
  | kYXZ
  | kZYX
  deriving DecidableEq

/-- Host rotation `MEulerRotation(x, y, z, order)`, angles in radians; the order
defaults to `kXYZ`. -/
structure MEulerRotation where
  x : ℚ
  y : ℚ
  z : ℚ
  order : RotationOrder
  deriving DecidableEq

/-- Host class `MTransformationMatrix`, by the components the code sets: a translation,
a per-axis scale, and the rotations applied so far (pivots and shear stay zero). -/
structure MTransformationMatrix where
  translation : MVector
  scale : MVector
  rotation : List MEulerRotation
  deriving DecidableEq

/-- The value `MTransformationMatrix(MMatrix())`: decomposition of the identity matrix. -/
def MTransformationMatrix.identity : MTransformationMatrix :=
  ⟨⟨0, 0, 0⟩, ⟨1, 1, 1⟩, []⟩

/-- Host method `setTranslation(vector, space)`. -/
def MTransformationMatrix.setTranslation (t : MTransformationMatrix) (v : MVector) :
    MTransformationMatrix :=
  { t with translation := v }

/-- Host method `setScale(scale, space)`. -/
def MTransformationMatrix.setScale (t : MTransformationMatrix) (sx sy sz : ℚ) :
    MTransformationMatrix :=
  { t with scale := ⟨sx, sy, sz⟩ }

/-- Host method `rotateBy(euler, space)`: adds a rotation on top of the current one. -/
def MTransformationMatrix.rotateBy (t : MTransformationMatrix) (r : MEulerRotation) :
    MTransformationMatrix :=
  { t with rotation := t.rotation ++ [r] }

/-- The host's cosine and sine, on exact numbers. -/
structure Trig where
  cos : ℚ → ℚ
  sin : ℚ → ℚ

/-- Scaling matrix `diag(sx, sy, sz, 1)`. -/
def scaleMatrix (sx sy sz : ℚ) : MMatrix :=
  !![sx, 0, 0, 0; 0, sy, 0, 0; 0, 0, sz, 0; 0, 0, 0, 1]

/-- Translation matrix, translation in the last row. -/
def translationMatrix (v : MVector) : MMatrix :=
  !![1, 0, 0, 0; 0, 1, 0, 0; 0, 0, 1, 0; v.x, v.y, v.z, 1]

/-- Rotation about the X axis. -/
def rotXMatrix (t : Trig) (a : ℚ) : MMatrix :=
  !![1, 0, 0, 0; 0, t.cos a, t.sin a, 0; 0, -t.sin a, t.cos a, 0; 0, 0, 0, 1]

/-- Rotation about the Y axis. -/
def rotYMatrix (t : Trig) (a : ℚ) : MMatrix :=
  !![t.cos a, 0, -t.sin a, 0; 0, 1, 0, 0; t.sin a, 0, t.cos a, 0; 0, 0, 0, 1]

/-- Rotation about the Z axis. -/
def rotZMatrix (t : Trig) (a : ℚ) : MMatrix :=
  !![t.cos a, t.sin a, 0, 0; -t.sin a, t.cos a, 0, 0; 0, 0, 1, 0; 0, 0, 0, 1]

/-- Host method `MEulerRotation::asMatrix`: the three axis rotations in the given order. -/
def MEulerRotation.asMatrix (t : Trig) (r : MEulerRotation) : MMatrix :=
  match r.order with
  | .kXYZ => rotXMatrix t r.x * rotYMatrix t r.y * rotZMatrix t r.z
  | .kYZX => rotYMatrix t r.y * rotZMatrix t r.z * rotXMatrix t r.x
  | .kZXY => rotZMatrix t r.z * rotXMatrix t r.x * rotYMatrix t r.y
  | .kXZY => rotXMatrix t r.x * rotZMatrix t r.z * rotYMatrix t r.y
  | .kYXZ => rotYMatrix t r.y * rotXMatrix t r.x * rotZMatrix t r.z
  | .kZYX => rotZMatrix t r.z * rotYMatrix t r.y * rotXMatrix t r.x

/-- Host method `MTransformationMatrix::asMatrix` with zero pivots and shear:
scale, then rotation, then translation. -/
def MTransformationMatrix.asMatrix (t : Trig) (m : MTransformationMatrix) : MMatrix :=
  scaleMatrix m.scale.x m.scale.y m.scale.z
    * (m.rotation.map (MEulerRotation.asMatrix t)).foldl (· * ·) 1
    * translationMatrix m.translation

/-- The local offset `localMatrix` that `transform` builds from the node's plugs. -/
def localMatrix (n : NodeAttrs) : MTransformationMatrix :=
  let localMatrix := MTransformationMatrix.identity
  let localMatrix := localMatrix.setTranslation
    ⟨n.localPositionX, n.localPositionY, n.localPositionZ⟩
  let localMatrix := localMatrix.setScale
    (n.localScaleX * n.scale) (n.localScaleY * n.scale) (n.localScaleZ * n.scale)
  let radiansX := n.localRotationX * radian
  let radiansY := n.localRotationY * radian
  let radiansZ := n.localRotationZ * radian
  let orientation : MEulerRotation := ⟨radiansX, radiansY, radiansZ, RotationOrder.kXYZ⟩
  localMatrix.rotateBy orientation

/-- The method `LocatorDrawOverride::transform`. -/
def transform (t : Trig) (objPath _cameraPath : MDagPath) : MMatrix :=
  let transformMatrix := objPath.worldMatrix
  let resultMatrix := (localMatrix objPath.node).asMatrix t * transformMatrix
  resultMatrix

/-! ## `locatorNode.cpp` -/

/-- The table `LocatorNode::colors`. -/
def colors : List String :=
  ["Dark Grey", "Grey", "Black", "Light Grey", "Medium Grey", "Light Red",
   "Dark Blue", "Blue", "Dark Green", "Dark Purple", "Pink", "Orange",
   "Dark Brown", "Dark Red", "Red", "Green", "Light Blue", "White", "Yellow",
   "Baby Blue", "Light Green", "Light Pink", "Light Orange", "Light Yellow",
   "Dark Green", "Dark Orange", "Dark Yellow", "Toxic Green", "Green",
   "Dark Baby Blue", "Silk Blue", "Purple", "Dark Pink"]

/-- The table `LocatorNode::shapes`. -/
def shapes : List String := ["Circle", "Square", "Triangle", "Box", "Sphere"]

/-- Host status `MStatus`, reduced to success or failure. -/
inductive MStatus where
  | kSuccess
  | kFailure
  deriving DecidableEq

/-- Kind of an attribute, by the function set that creates it. -/
inductive AttrType where
  | kFloat
  | kBoolean
  | kEnum
  | kCompound
  deriving DecidableEq

/-- An attribute as built through `MFnNumericAttribute`, `MFnEnumAttribute` or
`MFnCompoundAttribute` before it is handed to `addAttribute`. A flag or bound that the
code never sets is `none`. Children and dependency edges name attributes by long name. -/
structure Attribute where
  longName : String
  shortName : String
  type : AttrType
  defaultValue : ℚ
  min : Option ℚ
  max : Option ℚ
  keyable : Option Bool
  writable : Option Bool
  channelBox : Option Bool
  children : List String
  fields : List (String × Nat)
  deriving DecidableEq

/-- The loop `for (i = 0; i < table.size(); i++) fnEnum.addField(table[i], i)`. -/
def enumFields (table : List String) : List (String × Nat) :=
  (List.range table.length).filterMap fun i => (table.get? i).map fun s => (s, i)

/-- Attribute `scale`. -/
def scaleAttr : Attribute :=
  ⟨"scale", "scale", .kFloat, 1, some 0, none, some false, some true, some true, [], []⟩

/-- Attributes `localRotationX`, `localRotationY`, `localRotationZ`. -/
def localRotationAxisAttr (name : String) : Attribute :=
  ⟨name, name, .kFloat, 0, some (-360), some 360, some false, some true, some true, [], []⟩

/-- Compound attribute `localRotation`. -/
def localRotationAttr : Attribute :=
  ⟨"localRotation", "localRotation", .kCompound, 0, none, none, none, none, none,
    ["localRotationX", "localRotationY", "localRotationZ"], []⟩

/-- Enum attribute `shapes`. -/
def shapesEnumAttr : Attribute :=
  ⟨"shapes", "shapes", .kEnum, 0, none, none, some false, some true, some true, [],
    enumFields shapes⟩

/-- Enum attribute `colors`. -/
def colorsEnumAttr : Attribute :=
  ⟨"colors", "colors", .kEnum, 6, none, none, some false, some true, some true, [],
    enumFields colors⟩

/-- Attribute `filled`. -/
def filledAttr : Attribute :=
  ⟨"filled", "filled", .kBoolean, 0, none, none, some false, some true, some true, [], []⟩

/-- Attribute `lineThickness`. -/
def lineThicknessAttr : Attribute :=
  ⟨"lineThickness", "lineThickness", .kFloat, 1, some 1, none, none, some true, some true,
    [], []⟩

/-- A status-returning request that `initialize` makes to the host. -/
inductive HostCall where
  | addAttribute (a : Attribute)
  | attributeAffects (whenChanges isAffected : String)
  deriving DecidableEq

/-- The static method of `LocatorNode` that declares the schema (`MStatus
LocatorNode::initialize()`; the bare name is reserved here), against a host with state `σ`
that answers each request with a status and a new state. No returned status is looked
at. -/
def initializeNode {σ : Type} (host : σ → HostCall → MStatus × σ) (s : σ) : MStatus × σ :=
  let (_, s) := host s (.addAttribute scaleAttr)
  let (_, s) := host s (.addAttribute (localRotationAxisAttr "localRotationX"))
  let (_, s) := host s (.addAttribute (localRotationAxisAttr "localRotationY"))
  let (_, s) := host s (.addAttribute (localRotationAxisAttr "localRotationZ"))
  let (_, s) := host s (.addAttribute localRotationAttr)
  let (_, s) := host s (.addAttribute shapesEnumAttr)
  let (_, s) := host s (.addAttribute colorsEnumAttr)
  let (_, s) := host s (.addAttribute filledAttr)
  let (_, s) := host s (.addAttribute lineThicknessAttr)
  let (_, s) := host s (.attributeAffects "scale" "localScale")
  let (_, s) := host s (.attributeAffects "localRotation" "localScale")
  (MStatus.kSuccess, s)

/-- A host wrapped so that it also logs each request with the status it answered. -/
def logged {σ : Type} (host : σ → HostCall → MStatus × σ) :
    σ × List (HostCall × MStatus) → HostCall → MStatus × (σ × List (HostCall × MStatus))
  | (s, log), call =>
    let (status, s) := host s call
    (status, (s, log ++ [(call, status)]))

/-- A host attribute store with the declaration contract of the design document: the
long names declared so far and the dependency edges registered so far. -/
structure Schema where
  declared : List String
  edges : List (String × String)
  deriving DecidableEq

/-- Whether an attribute's range is inverted (`min > max`). -/
def Attribute.inverted (a : Attribute) : Bool :=
  match a.min, a.max with
  | some lo, some hi => decide (hi < lo)
  | _, _ => false

/-- The store's answer to a request: a declaration is rejected when its name collides
with a declared one or its range is inverted; an edge is rejected unless both ends are
declared. A rejected request leaves the store unchanged. -/
def Schema.host (s : Schema) : HostCall → MStatus × Schema
  | .addAttribute a =>
    if a.longName ∈ s.declared ∨ a.inverted = true then (MStatus.kFailure, s)
    else (MStatus.kSuccess, { s with declared := s.declared ++ [a.longName] })
  | .attributeAffects x y =>
    if x ∈ s.declared ∧ y ∈ s.declared then
      (MStatus.kSuccess, { s with edges := s.edges ++ [(x, y)] })
    else (MStatus.kFailure, s)

/-! ## Sample inputs -/

/-- A highlight colour used in the examples. -/
def sampleHighlight : MColor := ⟨1, 1, 0, 1⟩

/-- A snapshot with the given shape, fill flag, display status and colour index, line
thickness `2` and the sample highlight colour. -/
def sampleSnapshot (shape : Int) (filled : Bool) (status : DisplayStatus) (color : Int) :
    LocatorData :=
  ⟨sampleHighlight, color, shape, filled, 2, status⟩

/-- Plug values of a node with scale `2`, no local rotation, no local position and unit
local scale, showing a box. -/
def sampleNode : NodeAttrs :=
  { localPositionX := 0, localPositionY := 0, localPositionZ := 0
    localScaleX := 1, localScaleY := 1, localScaleZ := 1
    scale := 2
    localRotationX := 0, localRotationY := 0, localRotationZ := 0
    shapesEnum := 3, colorsEnum := 6, filled := false, lineThickness := 1 }

/-- A path to the sample node under a parent translated by (5, 0, 0), not selected. -/
def samplePath : MDagPath :=
  { node := sampleNode
    worldMatrix := translationMatrix ⟨5, 0, 0⟩
    displayStatus := DisplayStatus.kDormant
    wireframeColor := sampleHighlight }

/-- A free store holding a foreign object at address 0 and a snapshot at address 1. -/
def sampleHeap : Heap :=
  ⟨[MUserData.foreign 7, MUserData.locator (sampleSnapshot 0 true DisplayStatus.kActive 4)]⟩

/-- Cosine and sine truncated after their first non-constant term. -/
def sampleTrig : Trig := ⟨fun a => 1 - a * a / 2, fun a => a⟩

/-- A store in which the inherited `localScale` and a field named `scale` already
exist. -/
def sampleSchema : Schema := ⟨["localScale", "scale"], []⟩

/-! ## Draw traces of `addUIDrawables` -/

theorem drawShape_isPrimitive (d : LocatorData) :
    ∀ c ∈ drawShape d, c.isPrimitive = true := by
  intro c hc
  unfold drawShape at hc
  split_ifs at hc <;> simp at hc <;> subst hc <;> rfl

theorem primitives_drawLocator (d : LocatorData) :
    primitives (drawLocator d) = drawShape d := by
  have h := drawShape_isPrimitive d
  unfold primitives drawLocator
  by_cases hd : d.displayStatus = DisplayStatus.kDormant
  · simp [hd, List.filter_append, DrawCall.isPrimitive, List.filter_eq_self.mpr h]
  · simp [hd, List.filter_append, DrawCall.isPrimitive, List.filter_eq_self.mpr h]

theorem replay_primitives (s : DrawState) (l : List DrawCall)
    (h : ∀ c ∈ l, c.isPrimitive = true) (tail : List DrawCall) :
    replay s (l ++ tail) = l.map (fun p => ⟨p, s.color, s.lineWidth⟩) ++ replay s tail := by
  induction l with
  | nil => simp
  | cons c l ih =>
    have hc : c.isPrimitive = true := h c (by simp)
    have hl : ∀ c ∈ l, c.isPrimitive = true := fun x hx => h x (by simp [hx])
    cases c <;> simp [DrawCall.isPrimitive] at hc <;> simp [replay, DrawCall.isPrimitive, ih hl]

theorem toShort_of_fits (i : Int) (lo : -32768 ≤ i) (hi : i ≤ 32767) : toShort i = i := by
  unfold toShort
  omega

theorem drawShape_length (d : LocatorData) (lo : 0 ≤ d.shape) (hi : d.shape ≤ 4) :
    ∃ p, drawShape d = [p] := by
  have h : d.shape = 0 ∨ d.shape = 1 ∨ d.shape = 2 ∨ d.shape = 3 ∨ d.shape = 4 := by omega
  rcases h with h | h | h | h | h <;> simp [drawShape, h]

theorem rendered_drawLocator_highlight (d : LocatorData)
    (hd : d.displayStatus ≠ DisplayStatus.kDormant) :
    rendered (drawLocator d)
      = (drawShape d).map fun p =>
          ⟨p, some (ColorSource.rgba d.wireFrameColor), some d.lineThickness⟩ := by
  have h := replay_primitives ⟨some (ColorSource.rgba d.wireFrameColor), some d.lineThickness⟩
    (drawShape d) (drawShape_isPrimitive d) [DrawCall.endDrawable]
  simp [rendered, drawLocator, hd, replay, DrawCall.isPrimitive] at h ⊢
  exact h

/-- C1, as the code has it: the primitives emitted for a snapshot are, by shape index,
0: one circle (centre origin, normal (0,1,0), radius 1); 1: one rectangle (centre origin,
up (0,0,1), normal (0,1,0), 1 x 1); 2: one line strip through (-1,0,-1), (0,0,1),
(1,0,-1), (-1,0,-1); 3: one box (centre origin, up (0,1,0), right (1,0,0), 1 x 1 x 1);
4: one sphere (centre origin, radius 1, 8 x 6 subdivisions); any other index, negative
ones included: none. -/
theorem addUIDrawables_shape_dispatch (d : LocatorData) :
    (d.shape = 0 →
      primitives (addUIDrawables (some (.locator d))).calls
        = [.circle (MPoint.xyz 0 0 0) ⟨0, 1, 0⟩ 1 d.filled]) ∧
    (d.shape = 1 →
      ∃ up normal,
        primitives (addUIDrawables (some (.locator d))).calls
          = [.rect (MPoint.xyz 0 0 0) up normal 1 1 d.filled]
        ∧ up = ⟨0, 0, 1⟩ ∧ normal = ⟨0, 1, 0⟩) ∧
    (d.shape = 2 →
      ∃ points draw2D,
        primitives (addUIDrawables (some (.locator d))).calls = [.lineStrip points draw2D]
        ∧ points.map MPoint.cartesian = [(-1, 0, -1), (0, 0, 1), (1, 0, -1), (-1, 0, -1)]) ∧
    (d.shape = 3 →
      ∃ up right,
        primitives (addUIDrawables (some (.locator d))).calls
          = [.box (MPoint.xyz 0 0 0) up right 1 1 1 d.filled]
        ∧ up = ⟨0, 1, 0⟩ ∧ right = ⟨1, 0, 0⟩) ∧
    (d.shape = 4 →
      primitives (addUIDrawables (some (.locator d))).calls
        = [.sphere (MPoint.xyz 0 0 0) 1 8 6 d.filled]) ∧
    ((d.shape < 0 ∨ 4 < d.shape) →
      primitives (addUIDrawables (some (.locator d))).calls = []) := by
  have key : primitives (addUIDrawables (some (.locator d))).calls = drawShape d := by
    simp [addUIDrawables, dynamicCast, primitives_drawLocator]
  rw [key]
  refine ⟨?_, ?_, ?_, ?_, ?_, ?_⟩
  · intro h; simp [drawShape, h]
  · intro h; exact ⟨⟨0, 0, 1⟩, ⟨0, 1, 0⟩, by simp [drawShape, h], rfl, rfl⟩
  · intro h
    exact ⟨trianglePoints, false, by simp [drawShape, h],
      by simp [trianglePoints, MPoint.cartesian]⟩
  · intro h; exact ⟨⟨0, 1, 0⟩, ⟨1, 0, 0⟩, by simp [drawShape, h], rfl, rfl⟩
  · intro h; simp [drawShape, h]
  · intro h
    have h0 : d.shape ≠ 0 := by omega
    have h1 : d.shape ≠ 1 := by omega
    have h2 : d.shape ≠ 2 := by omega
    have h3 : d.shape ≠ 3 := by omega
    have h4 : d.shape ≠ 4 := by omega
    simp [drawShape, h0, h1, h2, h3, h4]

/-- C1 witness: a dormant, unfilled snapshot with shape index 1 emits exactly one
rectangle, with up vector (0,0,1) and normal (0,1,0). -/
theorem addUIDrawables_shape_dispatch_witness :
    ∃ up normal,
      primitives (addUIDrawables
          (some (.locator (sampleSnapshot 1 false DisplayStatus.kDormant 6)))).calls
        = [.rect (MPoint.xyz 0 0 0) up normal 1 1 false]
      ∧ up = ⟨0, 0, 1⟩ ∧ normal = ⟨0, 1, 0⟩ :=
  (addUIDrawables_shape_dispatch (sampleSnapshot 1 false DisplayStatus.kDormant 6)).2.1 rfl

/-- C1 counterexample: for shape index 1 the emitted rectangle has normal (0,1,0) and up
vector (0,0,1); its normal is not (0,0,1) and its up vector is not (0,1,0). -/
theorem addUIDrawables_rect_axes_counterexample :
    ∃ center up normal scaleX scaleY filled,
      primitives (addUIDrawables
          (some (.locator (sampleSnapshot 1 false DisplayStatus.kDormant 6)))).calls
        = [.rect center up normal scaleX scaleY filled]
      ∧ normal = ⟨0, 1, 0⟩ ∧ up = ⟨0, 0, 1⟩
      ∧ normal ≠ ⟨0, 0, 1⟩ ∧ up ≠ ⟨0, 1, 0⟩ := by
  refine ⟨MPoint.xyz 0 0 0, ⟨0, 0, 1⟩, ⟨0, 1, 0⟩, 1, 1, false, ?_, rfl, rfl, ?_, ?_⟩
  · simp [addUIDrawables, dynamicCast, primitives_drawLocator, drawShape, sampleSnapshot]
  · simp
  · simp

/-- C5, as the code has it: toggling `filled` leaves the kind, position, orientation and
size of the emitted primitive unchanged for every shape; the circle, rectangle, box and
sphere (shape indices 0, 1, 3, 4) are solid exactly when `filled` is set; the triangle
(shape index 2) is the same line strip, an outline, whatever `filled` is. -/
theorem addUIDrawables_filled_toggle (d : LocatorData) (filled : Bool) :
    (primitives (addUIDrawables (some (.locator { d with filled := filled }))).calls).map
        DrawCall.geometry
      = (primitives (addUIDrawables (some (.locator d))).calls).map DrawCall.geometry ∧
    ((d.shape = 0 ∨ d.shape = 1 ∨ d.shape = 3 ∨ d.shape = 4) →
      (primitives (addUIDrawables (some (.locator d))).calls).map DrawCall.solid
        = [d.filled]) ∧
    (d.shape = 2 →
      primitives (addUIDrawables (some (.locator { d with filled := filled }))).calls
        = primitives (addUIDrawables (some (.locator d))).calls ∧
      (primitives (addUIDrawables (some (.locator d))).calls).map DrawCall.solid
        = [false]) := by
  simp only [addUIDrawables, dynamicCast, primitives_drawLocator]
  refine ⟨?_, ?_, ?_⟩
  · unfold drawShape
    split_ifs <;> simp [DrawCall.geometry]
  · rintro (h | h | h | h) <;> simp [drawShape, h, DrawCall.solid]
  · intro h
    simp [drawShape, h, DrawCall.solid]

/-- C5 witness: a filled box (shape index 3) is drawn solid. -/
theorem addUIDrawables_filled_toggle_witness :
    (primitives (addUIDrawables
        (some (.locator (sampleSnapshot 3 true DisplayStatus.kDormant 6)))).calls).map
        DrawCall.solid
      = [true] :=
  (addUIDrawables_filled_toggle (sampleSnapshot 3 true DisplayStatus.kDormant 6) false).2.1
    (Or.inr (Or.inr (Or.inl rfl)))

/-- C5 counterexample: with `filled` set and shape index 2, the one primitive emitted is
a line strip, which is not drawn solid. -/
theorem addUIDrawables_filled_triangle_counterexample :
    (sampleSnapshot 2 true DisplayStatus.kDormant 6).filled = true ∧
    (∃ points draw2D,
      primitives (addUIDrawables
          (some (.locator (sampleSnapshot 2 true DisplayStatus.kDormant 6)))).calls
        = [.lineStrip points draw2D]) ∧
    (primitives (addUIDrawables
        (some (.locator (sampleSnapshot 2 true DisplayStatus.kDormant 6)))).calls).map
        DrawCall.solid
      = [false] := by
  refine ⟨rfl, ⟨trianglePoints, false, ?_⟩, ?_⟩ <;>
    simp [addUIDrawables, dynamicCast, primitives_drawLocator, drawShape, sampleSnapshot,
      DrawCall.solid]

/-- C7 at the failing input: handed a non-null object that is not a `LocatorData`,
`addUIDrawables` passes its guard, calls `beginDrawable` and then reads a field through
the null cast result; handed no data at all, it makes no call and ends without a fault. -/
theorem addUIDrawables_foreign_data :
    addUIDrawables (some (.foreign 0))
      = ⟨[DrawCall.beginDrawable], some Fault.nullDereference⟩ ∧
    addUIDrawables none = ⟨[], none⟩ := by
  constructor <;> rfl

/-- C8, as the code has it: for every snapshot, whatever its colour index (one outside
the 33-entry palette included), the first colour set is `snapshot.wireFrameColor`; when
the display status is not dormant no palette index is passed to the draw manager and
every primitive (exactly one for a shape index in 0..4) is drawn with
`snapshot.wireFrameColor`; when it is dormant the index is passed on through
`setColorIndex`, narrowed to the `short` parameter, so unchanged whenever it fits a
`short`. -/
theorem addUIDrawables_color_out_of_range (d : LocatorData) :
    (addUIDrawables (some (.locator d))).calls.take 2
      = [DrawCall.beginDrawable, DrawCall.setColor d.wireFrameColor] ∧
    (d.displayStatus ≠ DisplayStatus.kDormant →
      (∀ i, DrawCall.setColorIndex i ∉ (addUIDrawables (some (.locator d))).calls) ∧
      rendered (addUIDrawables (some (.locator d))).calls
        = (primitives (addUIDrawables (some (.locator d))).calls).map (fun p =>
            ⟨p, some (ColorSource.rgba d.wireFrameColor), some d.lineThickness⟩) ∧
      (0 ≤ d.shape → d.shape ≤ 4 →
        (rendered (addUIDrawables (some (.locator d))).calls).map Emitted.color
          = [some (ColorSource.rgba d.wireFrameColor)])) ∧
    (d.displayStatus = DisplayStatus.kDormant →
      (addUIDrawables (some (.locator d))).calls.take 3
        = [DrawCall.beginDrawable, DrawCall.setColor d.wireFrameColor,
            DrawCall.setColorIndex (toShort d.color)] ∧
      (-32768 ≤ d.color → d.color ≤ 32767 →
        (addUIDrawables (some (.locator d))).calls.take 3
          = [DrawCall.beginDrawable, DrawCall.setColor d.wireFrameColor,
              DrawCall.setColorIndex d.color])) := by
  simp only [addUIDrawables, dynamicCast, primitives_drawLocator]
  refine ⟨?_, ?_, ?_⟩
  · simp [drawLocator]
  · intro hd
    have hr := rendered_drawLocator_highlight d hd
    refine ⟨?_, hr, ?_⟩
    · intro i hi
      have hp := drawShape_isPrimitive d
      simp [drawLocator, hd] at hi
      exact absurd (hp _ hi) (by simp [DrawCall.isPrimitive])
    · intro lo hi
      obtain ⟨p, hp⟩ := drawShape_length d lo hi
      rw [hr, hp]
      rfl
  · intro hd
    have h3 : (drawLocator d).take 3
        = [DrawCall.beginDrawable, DrawCall.setColor d.wireFrameColor,
            DrawCall.setColorIndex (toShort d.color)] := by
      simp [drawLocator, hd]
    refine ⟨h3, ?_⟩
    intro clo chi
    rw [h3, toShort_of_fits d.color clo chi]

/-- C8 witness: an active (non-dormant) circle with colour index 33, one past the
33-entry palette, is one primitive, drawn with the highlight colour. -/
theorem addUIDrawables_color_out_of_range_witness :
    (colors.length : Int) ≤ (sampleSnapshot 0 false DisplayStatus.kActive 33).color ∧
    (rendered (addUIDrawables
        (some (.locator (sampleSnapshot 0 false DisplayStatus.kActive 33)))).calls).map
        Emitted.color
      = [some (ColorSource.rgba sampleHighlight)] :=
  ⟨by decide,
    ((addUIDrawables_color_out_of_range
      (sampleSnapshot 0 false DisplayStatus.kActive 33)).2.1 (by decide)).2.2
      (by decide) (by decide)⟩

/-- C8 counterexample: a dormant circle with colour index 33, one past the 33-entry
palette, has that index passed to `setColorIndex`, and the circle is drawn with palette
index 33 rather than with the highlight colour. -/
theorem addUIDrawables_color_index_counterexample :
    (colors.length : Int) ≤ (sampleSnapshot 0 false DisplayStatus.kDormant 33).color ∧
    DrawCall.setColorIndex 33 ∈ (addUIDrawables
        (some (.locator (sampleSnapshot 0 false DisplayStatus.kDormant 33)))).calls ∧
    (rendered (addUIDrawables
        (some (.locator (sampleSnapshot 0 false DisplayStatus.kDormant 33)))).calls).map
        Emitted.color
      = [some (ColorSource.palette 33)] ∧
    some (ColorSource.palette 33) ≠ some (ColorSource.rgba sampleHighlight) := by
  have h : toShort 33 = 33 := by decide
  refine ⟨by decide, ?_, ?_, by simp⟩
  · simp [addUIDrawables, dynamicCast, drawLocator, sampleSnapshot, h]
  · simp [addUIDrawables, dynamicCast, drawLocator, sampleSnapshot, drawShape, rendered,
      replay, DrawCall.isPrimitive, h]

/-! ## Bounding box -/

/-- C10: for every object path and camera path, `boundingBox` is the box with minimum
corner (-1,-1,-1) and maximum corner (1,1,1), and `isBounded` is true. -/
theorem boundingBox_fixed (objPath cameraPath : MDagPath) :
    boundingBox objPath cameraPath = ⟨MPoint.xyz (-1) (-1) (-1), MPoint.xyz 1 1 1⟩ ∧
    isBounded objPath cameraPath = true := by
  constructor
  · simp only [boundingBox, MBoundingBox.ofCorners, MPoint.xyz]
    norm_num
  · rfl

/-! ## Snapshot capture -/

theorem Heap.deref_set_self (objs : List MUserData) (p : Nat) (x : MUserData)
    (hp : p < objs.length) : (Heap.mk (objs.set p x)).deref p = some x := by
  simp [Heap.deref, List.getElem?_set, hp]

theorem Heap.deref_set_other (objs : List MUserData) (p q : Nat) (x : MUserData)
    (hq : q ≠ p) : (Heap.mk (objs.set p x)).deref q = (Heap.mk objs).deref q := by
  simp [Heap.deref, List.getElem?_set, Ne.symm hq]

theorem Heap.deref_lt (h : Heap) (p : Nat) (x : MUserData) (hp : h.deref p = some x) :
    p < h.objs.length := by
  simp only [Heap.deref, List.get?_eq_getElem?] at hp
  exact (List.getElem?_eq_some_iff.mp hp).1

theorem Heap.assign_locator (h : Heap) (p : Nat) (d : LocatorData)
    (f : LocatorData → LocatorData) (hp : h.deref p = some (.locator d)) :
    h.assign p f = ⟨h.objs.set p (.locator (f d))⟩ ∧
    (h.assign p f).deref p = some (.locator (f d)) := by
  have hlt := h.deref_lt p _ hp
  have h1 : h.assign p f = ⟨h.objs.set p (.locator (f d))⟩ := by simp [Heap.assign, hp]
  exact ⟨h1, by rw [h1]; exact Heap.deref_set_self _ _ _ hlt⟩

/-- The six field assignments of `prepareForDraw`, made through a pointer to a
`LocatorData`, leave exactly the current values there and touch nothing else. -/
theorem assign_all_fields (objPath : MDagPath) (h : Heap) (p : Nat) (d : LocatorData)
    (hp : h.deref p = some (.locator d)) :
    (((((h.assign p (fun d => { d with color := objPath.node.colorsEnum })).assign p
      (fun d => { d with displayStatus := objPath.displayStatus })).assign p
      (fun d => { d with wireFrameColor := objPath.wireframeColor })).assign p
      (fun d => { d with shape := objPath.node.shapesEnum })).assign p
      (fun d => { d with filled := objPath.node.filled })).assign p
      (fun d => { d with lineThickness := objPath.node.lineThickness })
    = ⟨h.objs.set p (.locator (currentValues objPath))⟩ := by
  obtain ⟨e1, g1⟩ := h.assign_locator p d
    (fun d => { d with color := objPath.node.colorsEnum }) hp
  obtain ⟨e2, g2⟩ := Heap.assign_locator _ p _
    (fun d => { d with displayStatus := objPath.displayStatus }) g1
  obtain ⟨e3, g3⟩ := Heap.assign_locator _ p _
    (fun d => { d with wireFrameColor := objPath.wireframeColor }) g2
  obtain ⟨e4, g4⟩ := Heap.assign_locator _ p _
    (fun d => { d with shape := objPath.node.shapesEnum }) g3
  obtain ⟨e5, g5⟩ := Heap.assign_locator _ p _
    (fun d => { d with filled := objPath.node.filled }) g4
  obtain ⟨e6, _⟩ := Heap.assign_locator _ p _
    (fun d => { d with lineThickness := objPath.node.lineThickness }) g5
  rw [e6, e5, e4, e3, e2, e1]
  simp [List.set_set, currentValues]

/-- C4: handed as `oldData` the address of a `LocatorData`, `prepareForDraw` returns that
same address, allocates nothing, leaves every other object untouched, and the object
there carries the current values in all six fields; handed a null pointer or the address
of an object that is not a `LocatorData`, it returns a newly allocated address (one not
in use before) whose object carries the same current values, every earlier object
untouched. The function is total: no input makes it fail. -/
theorem prepareForDraw_reuse_or_allocate (ctor : LocatorData) (objPath : MDagPath)
    (heap : Heap) :
    (∀ p d, heap.deref p = some (.locator d) →
      (prepareForDraw ctor objPath heap (some p)).1 = p ∧
      (prepareForDraw ctor objPath heap (some p)).2.objs.length = heap.objs.length ∧
      (prepareForDraw ctor objPath heap (some p)).2.deref p
        = some (.locator (currentValues objPath)) ∧
      ∀ q, q ≠ p → (prepareForDraw ctor objPath heap (some p)).2.deref q = heap.deref q) ∧
    (∀ oldData,
      (oldData = none ∨ ∃ p tag, oldData = some p ∧ heap.deref p = some (.foreign tag)) →
      heap.deref (prepareForDraw ctor objPath heap oldData).1 = none ∧
      (prepareForDraw ctor objPath heap oldData).2.objs.length = heap.objs.length + 1 ∧
      (prepareForDraw ctor objPath heap oldData).2.deref
          (prepareForDraw ctor objPath heap oldData).1
        = some (.locator (currentValues objPath)) ∧
      ∀ q, q < heap.objs.length →
        (prepareForDraw ctor objPath heap oldData).2.deref q = heap.deref q) := by
  constructor
  · intro p d hp
    have hlt := heap.deref_lt p _ hp
    have hc : heap.castLocator (some p) = some p := by simp [Heap.castLocator, hp]
    have hr : prepareForDraw ctor objPath heap (some p)
        = (p, ⟨heap.objs.set p (.locator (currentValues objPath))⟩) := by
      simp only [prepareForDraw, hc]
      rw [assign_all_fields objPath heap p d hp]
    rw [hr]
    refine ⟨rfl, by simp, Heap.deref_set_self _ _ _ hlt, ?_⟩
    intro q hq
    exact Heap.deref_set_other _ _ _ _ hq
  · intro oldData hold
    have hc : heap.castLocator oldData = none := by
      rcases hold with rfl | ⟨p, tag, rfl, hp⟩
      · rfl
      · simp [Heap.castLocator, hp]
    have hnew : (Heap.mk (heap.objs ++ [MUserData.locator ctor])).deref heap.objs.length
        = some (.locator ctor) := by
      simp [Heap.deref]
    have hr : prepareForDraw ctor objPath heap oldData
        = (heap.objs.length,
            ⟨(heap.objs ++ [MUserData.locator ctor]).set heap.objs.length
              (.locator (currentValues objPath))⟩) := by
      simp only [prepareForDraw, hc, Heap.new]
      rw [assign_all_fields objPath _ _ ctor hnew]
    rw [hr]
    refine ⟨by simp [Heap.deref], by simp, ?_, ?_⟩
    · exact Heap.deref_set_self _ _ _ (by simp)
    · intro q hq
      rw [Heap.deref_set_other _ _ _ _ (by omega)]
      simp [Heap.deref, List.getElem?_append_left hq]

/-- C4 witness: with a snapshot at address 1 handed back, address 1 is returned, the
store keeps its two objects, and the snapshot there now carries the current values. -/
theorem prepareForDraw_reuse_or_allocate_witness :
    (prepareForDraw (sampleSnapshot 0 false DisplayStatus.kNoStatus 0) samplePath sampleHeap
        (some 1)).1 = 1 ∧
    (prepareForDraw (sampleSnapshot 0 false DisplayStatus.kNoStatus 0) samplePath sampleHeap
        (some 1)).2.objs.length = sampleHeap.objs.length ∧
    (prepareForDraw (sampleSnapshot 0 false DisplayStatus.kNoStatus 0) samplePath sampleHeap
        (some 1)).2.deref 1 = some (.locator (currentValues samplePath)) ∧
    ∀ q, q ≠ 1 →
      (prepareForDraw (sampleSnapshot 0 false DisplayStatus.kNoStatus 0) samplePath
        sampleHeap (some 1)).2.deref q = sampleHeap.deref q :=
  (prepareForDraw_reuse_or_allocate (sampleSnapshot 0 false DisplayStatus.kNoStatus 0)
    samplePath sampleHeap).1 1 (sampleSnapshot 0 true DisplayStatus.kActive 4) rfl

/-! ## Transform composition -/

theorem one_fin_four :
    (1 : MMatrix) = !![1, 0, 0, 0; 0, 1, 0, 0; 0, 0, 1, 0; 0, 0, 0, 1] := by
  ext i j
  fin_cases i <;> fin_cases j <;> rfl

theorem rotXMatrix_zero (t : Trig) (hc : t.cos 0 = 1) (hs : t.sin 0 = 0) :
    rotXMatrix t 0 = 1 := by
  rw [one_fin_four]
  simp [rotXMatrix, hc, hs]

theorem rotYMatrix_zero (t : Trig) (hc : t.cos 0 = 1) (hs : t.sin 0 = 0) :
    rotYMatrix t 0 = 1 := by
  rw [one_fin_four]
  simp [rotYMatrix, hc, hs]

theorem rotZMatrix_zero (t : Trig) (hc : t.cos 0 = 1) (hs : t.sin 0 = 0) :
    rotZMatrix t 0 = 1 := by
  rw [one_fin_four]
  simp [rotZMatrix, hc, hs]

theorem translationMatrix_zero : translationMatrix ⟨0, 0, 0⟩ = 1 := by
  rw [one_fin_four]
  rfl

theorem scaleMatrix_eq_diagonal (sx sy sz : ℚ) :
    scaleMatrix sx sy sz = Matrix.diagonal ![sx, sy, sz, 1] := by
  ext i j
  fin_cases i <;> fin_cases j <;> rfl

/-- C3: replacing the uniform scale `s` by `k * s` multiplies each component of the scale
handed to the local offset matrix, `(sx * s, sy * s, sz * s)`, by `k`, and leaves the
translation and the Euler rotation handed to it unchanged. -/
theorem localMatrix_scale_linear (n : NodeAttrs) (k : ℚ) :
    (localMatrix n).scale
      = ⟨n.localScaleX * n.scale, n.localScaleY * n.scale, n.localScaleZ * n.scale⟩ ∧
    (localMatrix { n with scale := k * n.scale }).scale
      = ⟨k * (localMatrix n).scale.x, k * (localMatrix n).scale.y,
          k * (localMatrix n).scale.z⟩ ∧
    (localMatrix { n with scale := k * n.scale }).translation = (localMatrix n).translation ∧
    (localMatrix { n with scale := k * n.scale }).rotation = (localMatrix n).rotation := by
  refine ⟨rfl, ?_, rfl, rfl⟩
  simp only [localMatrix, MTransformationMatrix.rotateBy, MTransformationMatrix.setScale,
    MTransformationMatrix.setTranslation, MTransformationMatrix.identity]
  congr 1 <;> ring

theorem eta_fin_four (a : MMatrix) :
    a = !![a 0 0, a 0 1, a 0 2, a 0 3; a 1 0, a 1 1, a 1 2, a 1 3;
           a 2 0, a 2 1, a 2 2, a 2 3; a 3 0, a 3 1, a 3 2, a 3 3] := by
  ext i j
  fin_cases i <;> fin_cases j <;> rfl

/-- The product scale * rotX * rotY * rotZ * translation, entry by entry. -/
theorem scale_rot_translation_entries (t : Trig) (sx sy sz ax ay az : ℚ) (v : MVector) :
    scaleMatrix sx sy sz * (rotXMatrix t ax * rotYMatrix t ay * rotZMatrix t az)
        * translationMatrix v
      = !![sx * (t.cos ay * t.cos az), sx * (t.cos ay * t.sin az), sx * -t.sin ay, 0;
           sy * (t.sin ax * t.sin ay * t.cos az - t.cos ax * t.sin az),
             sy * (t.sin ax * t.sin ay * t.sin az + t.cos ax * t.cos az),
             sy * (t.sin ax * t.cos ay), 0;
           sz * (t.cos ax * t.sin ay * t.cos az + t.sin ax * t.sin az),
             sz * (t.cos ax * t.sin ay * t.sin az - t.sin ax * t.cos az),
             sz * (t.cos ax * t.cos ay), 0;
           v.x, v.y, v.z, 1] := by
  rw [eta_fin_four (_ * _ * _)]
  simp only [Matrix.mul_apply, Fin.sum_univ_four, scaleMatrix, rotXMatrix, rotYMatrix,
    rotZMatrix, translationMatrix]
  simp [Matrix.vecHead, Matrix.vecTail]
  simp only [sub_eq_add_neg]

/-- C6: `transform` is the local offset matrix times the ancestor world matrix, local
matrix on the left and the world matrix unmodified on the right. Written out, with
`(ax, ay, az) = (localRotationX, localRotationY, localRotationZ) * 3.14159265358979323846
/ 180` and `(sx, sy, sz) = (localScaleX, localScaleY, localScaleZ) * scale`, the local
offset matrix is the scaling by `(sx, sy, sz)`, then the rotations about X by `ax`, about
Y by `ay` and about Z by `az`, then the translation by `localPositionX/Y/Z`; its
components are that translation, that scale and that one XYZ Euler rotation. For scale 2,
zero rotation, zero local position and unit local scale the result is `diag(2,2,2,1)`
times the ancestor world matrix (given that the host's cosine and sine of 0 are 1 and
0). -/
theorem transform_composition (t : Trig) (objPath cameraPath : MDagPath) :
    let ax := objPath.node.localRotationX
      * (314159265358979323846 / 100000000000000000000 / 180)
    let ay := objPath.node.localRotationY
      * (314159265358979323846 / 100000000000000000000 / 180)
    let az := objPath.node.localRotationZ
      * (314159265358979323846 / 100000000000000000000 / 180)
    let sx := objPath.node.localScaleX * objPath.node.scale
    let sy := objPath.node.localScaleY * objPath.node.scale
    let sz := objPath.node.localScaleZ * objPath.node.scale
    transform t objPath cameraPath
      = !![sx * (t.cos ay * t.cos az), sx * (t.cos ay * t.sin az), sx * -t.sin ay, 0;
           sy * (t.sin ax * t.sin ay * t.cos az - t.cos ax * t.sin az),
             sy * (t.sin ax * t.sin ay * t.sin az + t.cos ax * t.cos az),
             sy * (t.sin ax * t.cos ay), 0;
           sz * (t.cos ax * t.sin ay * t.cos az + t.sin ax * t.sin az),
             sz * (t.cos ax * t.sin ay * t.sin az - t.sin ax * t.cos az),
             sz * (t.cos ax * t.cos ay), 0;
           objPath.node.localPositionX, objPath.node.localPositionY,
             objPath.node.localPositionZ, 1]
        * objPath.worldMatrix ∧
    transform t objPath cameraPath
      = (localMatrix objPath.node).asMatrix t * objPath.worldMatrix ∧
    (localMatrix objPath.node).translation
      = ⟨objPath.node.localPositionX, objPath.node.localPositionY,
          objPath.node.localPositionZ⟩ ∧
    (localMatrix objPath.node).scale = ⟨sx, sy, sz⟩ ∧
    (localMatrix objPath.node).rotation = [⟨ax, ay, az, RotationOrder.kXYZ⟩] ∧
    (t.cos 0 = 1 → t.sin 0 = 0 → objPath.node.scale = 2 →
      objPath.node.localRotationX = 0 ∧ objPath.node.localRotationY = 0 ∧
        objPath.node.localRotationZ = 0 →
      objPath.node.localPositionX = 0 ∧ objPath.node.localPositionY = 0 ∧
        objPath.node.localPositionZ = 0 →
      objPath.node.localScaleX = 1 ∧ objPath.node.localScaleY = 1 ∧
        objPath.node.localScaleZ = 1 →
      transform t objPath cameraPath
        = Matrix.diagonal ![2, 2, 2, 1] * objPath.worldMatrix) := by
  intro ax ay az sx sy sz
  refine ⟨?_, rfl, rfl, rfl, rfl, ?_⟩
  · rw [← scale_rot_translation_entries t sx sy sz ax ay az
      ⟨objPath.node.localPositionX, objPath.node.localPositionY,
        objPath.node.localPositionZ⟩]
    simp only [transform, localMatrix, MTransformationMatrix.asMatrix,
      MTransformationMatrix.rotateBy, MTransformationMatrix.setScale,
      MTransformationMatrix.setTranslation, MTransformationMatrix.identity,
      MEulerRotation.asMatrix, List.nil_append, List.map_cons, List.map_nil,
      List.foldl_cons, List.foldl_nil, one_mul, radian, ax, ay, az, sx, sy, sz]
  · rintro hc hs hscale ⟨hrx, hry, hrz⟩ ⟨hpx, hpy, hpz⟩ ⟨hsx, hsy, hsz⟩
    simp only [transform, localMatrix, MTransformationMatrix.asMatrix,
      MTransformationMatrix.rotateBy, MTransformationMatrix.setScale,
      MTransformationMatrix.setTranslation, MTransformationMatrix.identity,
      MEulerRotation.asMatrix, hscale, hrx, hry, hrz, hpx, hpy, hpz, hsx, hsy, hsz,
      zero_mul, one_mul, List.nil_append, List.map_cons, List.map_nil, List.foldl_cons,
      List.foldl_nil, rotXMatrix_zero t hc hs, rotYMatrix_zero t hc hs,
      rotZMatrix_zero t hc hs, translationMatrix_zero, mul_one, scaleMatrix_eq_diagonal]

/-- C6 witness: the sample node (scale 2, nothing else set) under a parent translated by
(5, 0, 0) gets `diag(2,2,2,1)` times that parent matrix. -/
theorem transform_composition_witness :
    transform sampleTrig samplePath samplePath
      = Matrix.diagonal ![2, 2, 2, 1] * samplePath.worldMatrix :=
  (transform_composition sampleTrig samplePath samplePath).2.2.2.2.2
    (by norm_num [sampleTrig]) rfl rfl ⟨rfl, rfl, rfl⟩ ⟨rfl, rfl, rfl⟩ ⟨rfl, rfl, rfl⟩

/-! ## Schema declaration -/

/-- C9, as the code has it: against every host, whatever statuses it answers,
the schema set-up of `LocatorNode` issues all eleven requests (nine attribute
declarations, then two dependency edges) in order and returns success. -/
theorem initializeNode_ignores_status {σ : Type} (host : σ → HostCall → MStatus × σ)
    (s : σ) :
    (initializeNode host s).1 = MStatus.kSuccess ∧
    (initializeNode (logged host) (s, [])).2.2.map Prod.fst
      = [.addAttribute scaleAttr,
         .addAttribute (localRotationAxisAttr "localRotationX"),
         .addAttribute (localRotationAxisAttr "localRotationY"),
         .addAttribute (localRotationAxisAttr "localRotationZ"),
         .addAttribute localRotationAttr,
         .addAttribute shapesEnumAttr,
         .addAttribute colorsEnumAttr,
         .addAttribute filledAttr,
         .addAttribute lineThicknessAttr,
         .attributeAffects "scale" "localScale",
         .attributeAffects "localRotation" "localScale"] := by
  constructor
  · rfl
  · simp [initializeNode, logged]

/-- C9 counterexample: with a field named `scale` already in the store, the first
declaration is rejected, yet the set-up returns success and goes on to declare the
remaining fields, `lineThickness` among them. -/
theorem initializeNode_collision_counterexample :
    (sampleSchema.host (.addAttribute scaleAttr)).1 = MStatus.kFailure ∧
    (initializeNode Schema.host sampleSchema).1 = MStatus.kSuccess ∧
    (initializeNode Schema.host sampleSchema).2.declared
      = ["localScale", "scale", "localRotationX", "localRotationY", "localRotationZ",
          "localRotation", "shapes", "colors", "filled", "lineThickness"] := by
  refine ⟨by decide, rfl, by decide⟩

end EmmPipe
